import Mathlib

/-!
Shallow embedding of the BloomBox catalog and recommendation service
(src/main.py) and verification of its specification claims.

Python `Optional[str]` / `Optional[int]` fields are modelled as `Option`;
Python's falsy-coalescing `x or d` is modelled by explicit helpers below,
and f-string interpolation of an optional value by `pyStr` (which renders
the Python value `None` as the literal text "None").
-/

/-- Python `x or d` for an optional string: `None` and `""` are falsy. -/
def pyOrStr : Option String → String → String
  | none, d => d
  | some s, d => if s = "" then d else s

/-- Python `s or d` for a plain string: `""` is falsy. -/
def pyOrS (s d : String) : String := if s = "" then d else s

/-- Python `x or d` for an optional integer: `None` and `0` are falsy. -/
def pyOrInt : Option Int → Int → Int
  | none, d => d
  | some v, d => if v = 0 then d else v

/-- Python truthiness of an optional string: `None` and `""` are falsy. -/
def pyTruthy : Option String → Bool
  | none => false
  | some s => s != ""

/-- Python f-string rendering of an optional string: `None` prints as "None". -/
def pyStr : Option String → String
  | none => "None"
  | some s => s

/-- Python `str.lower()` as a per-character map (the service's catalog data
and keys are ASCII, on which this agrees with Python). Defined over the
string's character list so that it reduces inside `decide` proofs. -/
def strLower (s : String) : String := ⟨s.data.map Char.toLower⟩

/-- A catalog record of `FEATURED_BOXES` (src/main.py lines 92-146). -/
structure GiftBox where
  slug : String
  name : String
  price : Int
  thumb : String
  gradient : List String
  items : List String
  mood : String
  occasions : List String
  relationships : List String
  description : String
deriving DecidableEq, Repr

def joyBox : GiftBox :=
  { slug := "joy-box"
    name := "Joy Box"
    price := 1899
    thumb := "https://images.unsplash.com/photo-1520975682031-6de9d3f7d89c?q=80&w=1200&auto=format&fit=crop"
    gradient := ["#FFD6E0", "#E8DFF5"]
    items := ["Rose-scented candle", "Handwritten note", "Almond cookies", "Mini dried bouquet"]
    mood := "happy"
    occasions := ["birthday", "graduation"]
    relationships := ["for her", "friends"]
    description := "A bright, cheerful curation to lift the spirits with rosy notes and sweet treats." }

def calmBox : GiftBox :=
  { slug := "calm-box"
    name := "Calm Box"
    price := 2199
    thumb := "https://images.unsplash.com/photo-1519681393784-d120267933ba?q=80&w=1200&auto=format&fit=crop"
    gradient := ["#B9F3E4", "#E8DFF5"]
    items := ["Lavender mist", "Chamomile tea", "Satin scrunchie", "Journaling pen"]
    mood := "calm"
    occasions := ["self-love", "anniversary"]
    relationships := ["for her", "parents"]
    description := "Soft, soothing essentials designed to unwind and slow down with gentle comfort." }

def loveBox : GiftBox :=
  { slug := "love-box"
    name := "Love Box"
    price := 2499
    thumb := "https://images.unsplash.com/photo-1519682577862-22b62b24e493?q=80&w=1200&auto=format&fit=crop"
    gradient := ["#FFD6E0", "#F4D9B3"]
    items := ["Silk ribbon", "Chocolate truffles", "Rose oil", "Polaroid frame"]
    mood := "romantic"
    occasions := ["anniversary", "birthday"]
    relationships := ["for her"]
    description := "Tender, rosy, love-forward pieces that feel like a handwritten poem." }

def celebrationBox : GiftBox :=
  { slug := "celebration-box"
    name := "Celebration Box"
    price := 2799
    thumb := "https://images.unsplash.com/photo-1513151233558-d860c5398176?q=80&w=1200&auto=format&fit=crop"
    gradient := ["#FFF7E9", "#F4D9B3"]
    items := ["Confetti popper", "Sparkle topper", "Vanilla cupcake mix", "Note card"]
    mood := "festive"
    occasions := ["graduation", "birthday"]
    relationships := ["friends", "parents", "for him"]
    description := "A party-in-a-box with shimmering accents and sweet celebration energy." }

/-- The module-level `FEATURED_BOXES` list, in source order. -/
def FEATURED_BOXES : List GiftBox := [joyBox, calmBox, loveBox, celebrationBox]

/-- The error raised by `get_category_listing` (HTTP 400 "Invalid category type"). -/
inductive FacetError where
  | InvalidFacetType
deriving DecidableEq, Repr

/-- The successful response of `get_category_listing`:
`{"category": {"type": ctype, "key": key}, "results": results}`. -/
structure CategoryListing where
  ctype : String
  key : String
  results : List GiftBox
deriving DecidableEq, Repr

/-- The inner `matches` predicate of `get_category_listing` (lines 173-180),
applied to the already lower-cased `ctype` and `key`. Every catalog record
carries a `mood`, so `b.get("mood") or ""` is the field itself. -/
def matchesFacet (ctype key : String) (b : GiftBox) : Bool :=
  if ctype = "moods" then strLower b.mood == key
  else if ctype = "occasions" then (b.occasions.map strLower).contains key
  else if ctype = "relationships" then (b.relationships.map strLower).contains key
  else false

/-- `get_category_listing` (src/main.py lines 163-183): lower-case both
parameters, reject an unknown category type with HTTP 400, otherwise filter
`FEATURED_BOXES` by the `matches` predicate. -/
def get_category_listing (ctype key : String) : Except FacetError CategoryListing :=
  let ctype := strLower ctype
  let key := strLower key
  if ctype ∈ (["moods", "occasions", "relationships"] : List String) then
    Except.ok ⟨ctype, key, FEATURED_BOXES.filter (matchesFacet ctype key)⟩
  else
    Except.error FacetError.InvalidFacetType

/-- The error raised by `get_box` (HTTP 404 "Box not found"). -/
inductive BoxError where
  | BoxNotFound
deriving DecidableEq, Repr

/-- The enriched product-page payload `{**b, "gallery": ..., ...}` returned by
`get_box` on a hit (lines 191-202). The source's floating-point rating `4.9`
is represented scaled by ten as the integer `49`. -/
structure BoxDetail where
  box : GiftBox
  gallery : List String
  ribbonOptions : List String
  estimated_delivery : String
  ratingTenths : Nat
  reviews : Nat
deriving DecidableEq, Repr

/-- `get_box` (src/main.py lines 186-203): first catalog record whose `slug`
equals the argument exactly, enriched with the gallery and static display
fields; otherwise HTTP 404. -/
def get_box (slug : String) : Except BoxError BoxDetail :=
  match FEATURED_BOXES.find? (fun b => b.slug == slug) with
  | some b =>
      Except.ok
        { box := b
          gallery :=
            [b.thumb,
             "https://images.unsplash.com/photo-1519681393784-d120267933ba?q=80&w=1200&auto=format&fit=crop",
             "https://images.unsplash.com/photo-1519682577862-22b62b24e493?q=80&w=1200&auto=format&fit=crop"]
          ribbonOptions := ["Blush Pink", "Sage Green", "Champagne"]
          estimated_delivery := "3–5 days"
          ratingTenths := 49
          reviews := 128 }
  | none => Except.error BoxError.BoxNotFound

/-- The `RecommendRequest` model (src/main.py lines 18-24). -/
structure RecommendRequest where
  query : Option String := none
  mood : Option String := none
  relationship : Option String := none
  occasion : Option String := none
  min_budget : Option Int := none
  max_budget : Option Int := none
deriving DecidableEq, Repr

/-- One entry of the mood-keyed suggestion pool. -/
structure SuggestionItem where
  title : String
  price : Int
  tag : String
deriving DecidableEq, Repr

/-- The response of `recommend_gifts` (lines 258-262). -/
structure RecommendResult where
  context : String
  query : Option String
  results : List SuggestionItem
deriving DecidableEq, Repr

/-- The local `pool` dictionary of `recommend_gifts` (lines 213-244),
as a partial lookup so that `pool.get(key, [])` is `(pool key).getD []`. -/
def pool (k : String) : Option (List SuggestionItem) :=
  if k = "happy" then some
    [⟨"Sunshine Candle", 699, "cheer"⟩,
     ⟨"Berry Truffles", 499, "treat"⟩,
     ⟨"Mini Bouquet", 799, "flowers"⟩]
  else if k = "calm" then some
    [⟨"Lavender Mist", 749, "relax"⟩,
     ⟨"Chamomile Tea Set", 549, "soothe"⟩,
     ⟨"Soft Eye Mask", 399, "sleep"⟩]
  else if k = "romantic" then some
    [⟨"Rose Oil", 999, "romance"⟩,
     ⟨"Silk Ribbon Wrap", 299, "wrap"⟩,
     ⟨"Love Notes Set", 399, "note"⟩]
  else if k = "festive" then some
    [⟨"Confetti Popper", 299, "party"⟩,
     ⟨"Vanilla Cupcake Mix", 499, "bake"⟩,
     ⟨"Sparkle Topper", 349, "sparkle"⟩]
  else if k = "sad" then some
    [⟨"Warm Hug Mug", 599, "comfort"⟩,
     ⟨"Kind Notes", 349, "uplift"⟩,
     ⟨"Self-care Mask", 299, "care"⟩]
  else if k = "self-love" then some
    [⟨"Jade Roller", 899, "glow"⟩,
     ⟨"Affirmation Cards", 499, "affirm"⟩,
     ⟨"Bath Salt", 399, "soak"⟩]
  else none

/-- Local `mood = (req.mood or "").lower()` of `recommend_gifts` (line 209). -/
def recMood (req : RecommendRequest) : String := strLower (pyOrStr req.mood "")

/-- Local `occasion = (req.occasion or "").lower()` (line 210). -/
def recOccasion (req : RecommendRequest) : String := strLower (pyOrStr req.occasion "")

/-- Local `relationship = (req.relationship or "").lower()` (line 211). -/
def recRelationship (req : RecommendRequest) : String := strLower (pyOrStr req.relationship "")

/-- `suggestions = pool.get(mood or "happy", [])` (line 246). -/
def rawSuggestions (req : RecommendRequest) : List SuggestionItem :=
  (pool (pyOrS (recMood req) "happy")).getD []

/-- The budget-filter step (lines 249-252): runs only when at least one bound
is supplied; `mn = req.min_budget or 0`, `mx = req.max_budget or 10_000_000`
follow Python falsy-coalescing, so a supplied bound of `0` takes the default. -/
def budgetFiltered (req : RecommendRequest) : List SuggestionItem :=
  if req.min_budget.isSome || req.max_budget.isSome then
    let mn := pyOrInt req.min_budget 0
    let mx := pyOrInt req.max_budget 10000000
    (rawSuggestions req).filter fun s => decide (mn ≤ s.price) && decide (s.price ≤ mx)
  else rawSuggestions req

/-- `context_bits = [b for b in [mood, occasion, relationship] if b]` (line 255). -/
def contextBits (req : RecommendRequest) : List String :=
  [recMood req, recOccasion req, recRelationship req].filter (fun b => b != "")

/-- `recommend_gifts` (src/main.py lines 206-262). -/
def recommend_gifts (req : RecommendRequest) : RecommendResult :=
  { context :=
      if (contextBits req).isEmpty then "thoughtful"
      else String.intercalate ", " (contextBits req)
    query := req.query
    results := (budgetFiltered req).take 5 }

/-- The `MessageRequest` model (src/main.py lines 27-35); `style` carries the
pydantic default `"warm"` but a client may still send an explicit null. -/
structure MessageRequest where
  «to» : Option String := none
  from_name : Option String := none
  mood : Option String := none
  occasion : Option String := none
  style : Option String := some "warm"
deriving DecidableEq, Repr

/-- The `warm` sentence of the `tones` dictionary, also the fallback of
`tones.get(..., tones["warm"])`. -/
def warmTone : String := "Wrapping you in a soft hug and a little sparkle today."

/-- The `tones` dictionary of `generate_message` (lines 267-273). -/
def tones (k : String) : Option String :=
  if k = "warm" then some warmTone
  else if k = "romantic" then some "My heart chose this just for you—gentle, rosy and full of love."
  else if k = "playful" then some "A pocketful of confetti and a sprinkle of mischief—just for you!"
  else if k = "grateful" then some "Thank you for being the calm in my chaos and the glow in my days."
  else if k = "poetic" then some "Like petals on quiet water, may this bring you small, luminous joy."
  else none

/-- `to_line` (line 275). -/
def toLine (req : MessageRequest) : String :=
  if pyTruthy req.«to» then "Dear " ++ pyStr req.«to» ++ "," else "Hey love,"

/-- `style_line = tones.get((req.style or "warm").lower(), tones["warm"])` (line 276). -/
def styleLine (req : MessageRequest) : String :=
  (tones (strLower (pyOrStr req.style "warm"))).getD warmTone

/-- `mood_line` (line 277): the f-string interpolates the raw optional fields,
so an absent one renders as the literal text "None". -/
def moodLine (req : MessageRequest) : String :=
  if pyTruthy req.occasion || pyTruthy req.mood then
    " For your " ++ pyStr req.occasion ++ " I wished for " ++ pyStr req.mood ++ " moments."
  else ""

/-- `from_line` (line 278). -/
def fromLine (req : MessageRequest) : String :=
  if pyTruthy req.from_name then "\n\nWith love,\n" ++ pyStr req.from_name
  else "\n\nWith love,\nBloomBox"

/-- `generate_message` (src/main.py lines 265-282): the `message` field of the
returned payload. -/
def generate_message (req : MessageRequest) : String :=
  toLine req ++ "\n" ++ styleLine req ++ moodLine req ++ fromLine req

/-- Naive substring test over character lists: does `p` occur contiguously? -/
def hasSubList (p : List Char) : List Char → Bool
  | [] => p == []
  | c :: rest => ((c :: rest).take p.length == p) || hasSubList p rest

/-- Substring test on strings, used to state claims about message contents. -/
def strContains (s pat : String) : Bool := hasSubList pat.data s.data

/-! ### Shared lemmas -/

theorem pool_getD_length_le (k : String) : ((pool k).getD []).length ≤ 5 := by
  unfold pool
  repeat' split
  all_goals simp

theorem budgetFiltered_length_le (req : RecommendRequest) :
    (budgetFiltered req).length ≤ 5 := by
  unfold budgetFiltered rawSuggestions
  split
  · exact le_trans (List.length_filter_le _ _) (pool_getD_length_le _)
  · exact pool_getD_length_le _

/-- Every candidate pool has at most five entries, so the `[:5]` truncation in
`recommend_gifts` never drops anything: `results` is the budget-filtered list. -/
theorem results_eq_budgetFiltered (req : RecommendRequest) :
    (recommend_gifts req).results = budgetFiltered req :=
  List.take_of_length_le (budgetFiltered_length_le req)

/-- A key outside the five style names has no entry in `tones`. -/
theorem tones_eq_none (k : String)
    (h : k ∉ (["warm", "romantic", "playful", "grateful", "poetic"] : List String)) :
    tones k = none := by
  simp only [List.mem_cons, List.not_mem_nil, or_false, not_or] at h
  obtain ⟨h1, h2, h3, h4, h5⟩ := h
  unfold tones
  simp [h1, h2, h3, h4, h5]

/-! ### Claims -/

/-- The matching rule of claim C2, written from the spec's words: the
case-folded key equals the box's case-folded `mood` for the `moods` facet, and
belongs to the case-folded `occasions` / `relationships` set otherwise. -/
def facetSpecMatch (ctype key : String) (b : GiftBox) : Prop :=
  (ctype = "moods" ∧ strLower b.mood = key) ∨
  (ctype = "occasions" ∧ key ∈ b.occasions.map strLower) ∨
  (ctype = "relationships" ∧ key ∈ b.relationships.map strLower)

instance (ctype key : String) (b : GiftBox) : Decidable (facetSpecMatch ctype key b) := by
  unfold facetSpecMatch
  infer_instance

instance {ε α : Type} [DecidableEq ε] [DecidableEq α] : DecidableEq (Except ε α) := fun x y =>
  match x, y with
  | Except.error a, Except.error b =>
      if h : a = b then Decidable.isTrue (congrArg Except.error h)
      else Decidable.isFalse (fun hc => h (Except.error.inj hc))
  | Except.ok a, Except.ok b =>
      if h : a = b then Decidable.isTrue (congrArg Except.ok h)
      else Decidable.isFalse (fun hc => h (Except.ok.inj hc))
  | Except.error _, Except.ok _ => Decidable.isFalse (fun hc => Except.noConfusion hc)
  | Except.ok _, Except.error _ => Decidable.isFalse (fun hc => Except.noConfusion hc)

/-- C2: for every valid facet type and every key, `get_category_listing`
returns exactly the catalog boxes whose case-folded facet field/set matches
the case-folded key, in catalog insertion order (an empty result is a valid
`ok` value, not an error). -/
theorem C2_facet_query (ctype key : String)
    (h : strLower ctype ∈ (["moods", "occasions", "relationships"] : List String)) :
    get_category_listing ctype key =
      Except.ok ⟨strLower ctype, strLower key,
        FEATURED_BOXES.filter (fun b => decide (facetSpecMatch (strLower ctype) (strLower key) b))⟩ := by
  unfold get_category_listing
  rw [if_pos h]
  have hfilter :
      FEATURED_BOXES.filter (matchesFacet (strLower ctype) (strLower key)) =
      FEATURED_BOXES.filter (fun b => decide (facetSpecMatch (strLower ctype) (strLower key) b)) := by
    apply List.filter_congr
    intro b _
    rw [Bool.eq_iff_iff]
    simp only [List.mem_cons, List.not_mem_nil, or_false] at h
    rcases h with h | h | h <;> rw [h] <;> simp [matchesFacet, facetSpecMatch]
  rw [hfilter]

/-- C2 witness: querying the `moods` facet with upper-cased inputs returns
exactly the one happy box. -/
theorem C2_facet_query_witness :
    get_category_listing "Moods" "HAPPY" = Except.ok ⟨"moods", "happy", [joyBox]⟩ := by
  rw [C2_facet_query "Moods" "HAPPY" (by decide)]
  decide

/-- C3: `get_category_listing` fails with `InvalidFacetType` exactly when the
case-folded type is outside `{moods, occasions, relationships}`; in
particular the `("colors", "red")` query fails with it. -/
theorem C3_invalid_facet_type (ctype key : String) :
    ((get_category_listing ctype key = Except.error FacetError.InvalidFacetType) ↔
      strLower ctype ∉ (["moods", "occasions", "relationships"] : List String)) ∧
    get_category_listing "colors" "red" = Except.error FacetError.InvalidFacetType := by
  refine ⟨?_, by decide⟩
  by_cases hmem : strLower ctype ∈ (["moods", "occasions", "relationships"] : List String) <;>
    simp [get_category_listing, hmem]

/-- C5: `recommend_gifts` never returns more than five items, and what it
returns is a prefix of the budget-filtered candidate sequence in original
candidate order (no re-ranking, no randomization). -/
theorem C5_result_cap (req : RecommendRequest) :
    (recommend_gifts req).results.length ≤ 5 ∧
    ∃ rest, budgetFiltered req = (recommend_gifts req).results ++ rest := by
  constructor
  · rw [results_eq_budgetFiltered]
    exact budgetFiltered_length_le req
  · exact ⟨(budgetFiltered req).drop 5, (List.take_append_drop 5 (budgetFiltered req)).symm⟩

/-- C8: a non-empty case-folded mood that is not a key of the candidate pool
yields an empty `results` list — `recommend_gifts` is total, so this is a
successful response rather than an error. -/
theorem C8_unknown_mood (req : RecommendRequest)
    (h1 : recMood req ≠ "") (h2 : pool (recMood req) = none) :
    (recommend_gifts req).results = [] := by
  rw [results_eq_budgetFiltered]
  have hraw : rawSuggestions req = [] := by
    unfold rawSuggestions pyOrS
    rw [if_neg h1, h2]
    rfl
  unfold budgetFiltered
  split <;> simp [hraw]

/-- C8 witness: the mood "furious" is not in the pool, and the call succeeds
with an empty results list. -/
theorem C8_unknown_mood_witness :
    (recommend_gifts { mood := some "furious" }).results = [] :=
  C8_unknown_mood { mood := some "furious" } (by decide) (by decide)

/-- C1 counterexample: the claim predicts that `maxBudget = 0` filters to
prices in `[0, 0]`, i.e. an empty result on the happy pool; the code's
falsy-coalescing `req.max_budget or 10_000_000` instead treats a supplied 0
as absent and returns all three happy items. -/
theorem C1_counterexample :
    (recommend_gifts { mood := some "happy", max_budget := some 0 }).results =
      [⟨"Sunshine Candle", 699, "cheer"⟩,
       ⟨"Berry Truffles", 499, "treat"⟩,
       ⟨"Mini Bouquet", 799, "flowers"⟩] ∧
    ¬ (∀ s ∈ (recommend_gifts { mood := some "happy", max_budget := some 0 }).results,
        (0 : Int) ≤ s.price ∧ s.price ≤ 0) := by
  constructor
  · decide
  · decide

/-- C1 (amended): when at least one budget bound is supplied, the returned
results are exactly the candidates of the selected mood pool whose price lies
in the inclusive interval between the effective bounds `req.min_budget or 0`
and `req.max_budget or 10_000_000` (a supplied bound of 0 is treated as
absent, per Python falsy-coalescing); when neither bound is supplied the
candidate sequence is returned unfiltered. -/
theorem C1_budget_filter (req : RecommendRequest) :
    (req.min_budget.isSome = true ∨ req.max_budget.isSome = true →
      (recommend_gifts req).results =
        (rawSuggestions req).filter (fun s =>
          decide (pyOrInt req.min_budget 0 ≤ s.price) &&
          decide (s.price ≤ pyOrInt req.max_budget 10000000))) ∧
    (req.min_budget = none ∧ req.max_budget = none →
      (recommend_gifts req).results = rawSuggestions req) := by
  constructor
  · intro h
    rw [results_eq_budgetFiltered]
    unfold budgetFiltered
    rw [if_pos]
    rcases h with h | h <;> simp [h]
  · rintro ⟨h1, h2⟩
    rw [results_eq_budgetFiltered]
    unfold budgetFiltered
    rw [if_neg]
    simp [h1, h2]

def reqC1a : RecommendRequest := { mood := some "happy", min_budget := some 500, max_budget := some 700 }

def reqC1b : RecommendRequest := { mood := some "happy" }

/-- C1 witness: with bounds 500 and 700 the happy pool filters to the
in-interval items, and with no bounds it passes through unfiltered. -/
theorem C1_budget_filter_witness :
    ((recommend_gifts reqC1a).results =
      (rawSuggestions reqC1a).filter (fun s =>
        decide (pyOrInt reqC1a.min_budget 0 ≤ s.price) &&
        decide (s.price ≤ pyOrInt reqC1a.max_budget 10000000))) ∧
    (recommend_gifts reqC1b).results = rawSuggestions reqC1b :=
  ⟨(C1_budget_filter reqC1a).1 (Or.inl rfl), (C1_budget_filter reqC1b).2 ⟨rfl, rfl⟩⟩

/-- C4: the `context` field is the ", "-join of the non-empty case-folded
values among mood, occasion, relationship in that fixed order, or
"thoughtful" when all three are empty; in particular the two concrete calls
of the claim produce "happy, birthday, friends" and "thoughtful". -/
theorem C4_context (req : RecommendRequest) :
    ((recommend_gifts req).context =
      (if ([pyOrStr req.mood "", pyOrStr req.occasion "", pyOrStr req.relationship ""].map
            strLower).filter (fun b => b != "") = [] then "thoughtful"
       else String.intercalate ", "
        (([pyOrStr req.mood "", pyOrStr req.occasion "", pyOrStr req.relationship ""].map
            strLower).filter (fun b => b != "")))) ∧
    (recommend_gifts
        { mood := some "Happy", occasion := some "Birthday", relationship := some "Friends" }).context =
      "happy, birthday, friends" ∧
    (recommend_gifts ({} : RecommendRequest)).context = "thoughtful" := by
  refine ⟨?_, by decide, by decide⟩
  have hbits : ([pyOrStr req.mood "", pyOrStr req.occasion "", pyOrStr req.relationship ""].map
      strLower).filter (fun b => b != "") = contextBits req := rfl
  rw [hbits]
  show (if (contextBits req).isEmpty then "thoughtful"
        else String.intercalate ", " (contextBits req)) = _
  cases h : contextBits req <;> simp [h]

/-- C6: `get_box` fails with `BoxNotFound` exactly when no catalog entry has
the requested slug; on a hit the returned detail is the matching box enriched
with a three-image gallery whose first entry is the box's own thumbnail. -/
theorem C6_get_box (slug : String) :
    ((get_box slug = Except.error BoxError.BoxNotFound) ↔
      ∀ b ∈ FEATURED_BOXES, b.slug ≠ slug) ∧
    (∀ d, get_box slug = Except.ok d →
      d.box ∈ FEATURED_BOXES ∧ d.box.slug = slug ∧
      d.gallery.length = 3 ∧ d.gallery.head? = some d.box.thumb) := by
  unfold get_box
  cases hfind : FEATURED_BOXES.find? (fun b => b.slug == slug) with
  | none =>
      refine ⟨⟨fun _ => ?_, fun _ => rfl⟩, fun d hd => by cases hd⟩
      intro b hb
      have := List.find?_eq_none.mp hfind b hb
      simpa using this
  | some b =>
      constructor
      · constructor
        · intro hc
          cases hc
        · intro hall
          exfalso
          exact hall b (List.mem_of_find?_eq_some hfind) (by simpa using List.find?_some hfind)
      · intro d hd
        cases hd
        refine ⟨List.mem_of_find?_eq_some hfind, by simpa using List.find?_some hfind, rfl, rfl⟩

def joyDetail : BoxDetail :=
  { box := joyBox
    gallery :=
      [joyBox.thumb,
       "https://images.unsplash.com/photo-1519681393784-d120267933ba?q=80&w=1200&auto=format&fit=crop",
       "https://images.unsplash.com/photo-1519682577862-22b62b24e493?q=80&w=1200&auto=format&fit=crop"]
    ribbonOptions := ["Blush Pink", "Sage Green", "Champagne"]
    estimated_delivery := "3–5 days"
    ratingTenths := 49
    reviews := 128 }

/-- C6 witness: the slug "nonexistent" fails with `BoxNotFound`, and the
"joy-box" detail is the joy box with its thumbnail leading a 3-image gallery. -/
theorem C6_get_box_witness :
    get_box "nonexistent" = Except.error BoxError.BoxNotFound ∧
    (joyDetail.box ∈ FEATURED_BOXES ∧ joyDetail.box.slug = "joy-box" ∧
     joyDetail.gallery.length = 3 ∧ joyDetail.gallery.head? = some joyDetail.box.thumb) :=
  ⟨(C6_get_box "nonexistent").1.mpr (by decide),
   (C6_get_box "joy-box").2 joyDetail (by decide)⟩

/-- C7: a `MessageRequest` whose case-folded style is not one of the five
template keys produces exactly the same message as the same request with
style "warm" (unknown styles fall back to the warm sentence, and no other
component of the message depends on the style). -/
theorem C7_style_fallback (req : MessageRequest)
    (h : strLower (req.style.getD "warm") ∉
      (["warm", "romantic", "playful", "grateful", "poetic"] : List String)) :
    generate_message req = generate_message { req with style := some "warm" } := by
  have hstyle : styleLine req = styleLine { req with style := some "warm" } := by
    unfold styleLine
    cases hs : req.style with
    | none => rfl
    | some s =>
        rw [hs] at h
        by_cases hse : s = ""
        · subst hse
          rfl
        · have hpy : pyOrStr (some s) "warm" = s := by simp [pyOrStr, hse]
          rw [hpy, tones_eq_none (strLower s) (by simpa using h)]
          rfl
  unfold generate_message
  rw [hstyle]
  rfl

/-- C7 witness: the unknown style "unknown-style" yields the same message as
style "warm" for the same recipient. -/
theorem C7_style_fallback_witness :
    generate_message { «to» := some "Mia", style := some "unknown-style" } =
      generate_message { «to» := some "Mia", style := some "warm" } :=
  C7_style_fallback { «to» := some "Mia", style := some "unknown-style" } (by decide)

/-- A pattern occurring contiguously in the middle of a list is found by
`hasSubList`. -/
theorem hasSubList_middle (p x y : List Char) : hasSubList p (x ++ p ++ y) = true := by
  induction x with
  | nil =>
      cases p with
      | nil => cases y <;> simp [hasSubList]
      | cons c cs =>
          simp only [List.nil_append, List.cons_append]
          rw [hasSubList]
          have ht : (c :: (cs ++ y)).take (c :: cs).length = c :: cs := by
            rw [← List.cons_append]
            exact List.take_left (c :: cs) y
          rw [ht]
          simp
  | cons a x ih =>
      simp only [List.cons_append]
      rw [hasSubList, ih]
      simp

/-- C9: when exactly one of `occasion` and `mood` is a supplied (truthy)
string and the other is the Python null, the composed message contains the
literal substring "None", because the f-string interpolates the absent field
as the text "None". -/
theorem C9_none_interpolation (req : MessageRequest)
    (h : (pyTruthy req.occasion = true ∧ req.mood = none) ∨
         (pyTruthy req.mood = true ∧ req.occasion = none)) :
    strContains (generate_message req) "None" = true := by
  have hcond : (pyTruthy req.occasion || pyTruthy req.mood) = true := by
    rcases h with ⟨h1, _⟩ | ⟨h1, _⟩ <;> simp [h1]
  have hml : moodLine req =
      " For your " ++ pyStr req.occasion ++ " I wished for " ++ pyStr req.mood ++
        " moments." := by
    unfold moodLine
    rw [if_pos hcond]
  unfold strContains
  rcases h with ⟨_, h2⟩ | ⟨_, h2⟩
  · have hd : (generate_message req).data =
        ((toLine req).data ++ "\n".data ++ (styleLine req).data ++
          " For your ".data ++ (pyStr req.occasion).data ++ " I wished for ".data) ++
        "None".data ++ (" moments.".data ++ (fromLine req).data) := by
      unfold generate_message
      rw [hml, h2]
      simp [pyStr, String.data_append, List.append_assoc]
    rw [hd]
    exact hasSubList_middle _ _ _
  · have hd : (generate_message req).data =
        ((toLine req).data ++ "\n".data ++ (styleLine req).data ++ " For your ".data) ++
        "None".data ++
        (" I wished for ".data ++ (pyStr req.mood).data ++ " moments.".data ++
          (fromLine req).data) := by
      unfold generate_message
      rw [hml, h2]
      simp [pyStr, String.data_append, List.append_assoc]
    rw [hd]
    exact hasSubList_middle _ _ _

/-- C9 witness: occasion "birthday" with no mood yields a message containing
the text "None". -/
theorem C9_none_interpolation_witness :
    strContains (generate_message { occasion := some "birthday" }) "None" = true :=
  C9_none_interpolation { occasion := some "birthday" } (Or.inl ⟨by decide, rfl⟩)

/-- C10: slug lookup is a case-sensitive exact match, unlike the case-folding
facet queries: any slug that differs from a catalog slug only in letter case
(it is distinct from it, but case-folds to the same string) is not found. -/
theorem C10_case_sensitive_slug (s : String)
    (h : ∃ b ∈ FEATURED_BOXES, s ≠ b.slug ∧ strLower s = strLower b.slug) :
    get_box s = Except.error BoxError.BoxNotFound := by
  obtain ⟨b, hb, hne, hlow⟩ := h
  have hfind : FEATURED_BOXES.find? (fun c => c.slug == s) = none := by
    rw [List.find?_eq_none]
    intro c hc hceq
    have hcs : c.slug = s := by simpa using hceq
    rw [← hcs] at hne hlow
    fin_cases hb <;> fin_cases hc <;> revert hne hlow <;> decide
  unfold get_box
  rw [hfind]

/-- C10 witness: "Joy-Box" case-folds to the existing slug "joy-box" but is
rejected with `BoxNotFound`. -/
theorem C10_case_sensitive_slug_witness :
    get_box "Joy-Box" = Except.error BoxError.BoxNotFound :=
  C10_case_sensitive_slug "Joy-Box" ⟨joyBox, by decide, by decide, by decide⟩
